import Mathlib

/-!
Shallow embedding of the two scripts of the `serverless` repository:
the Greeter (`notes/code_examples/python_function_example/main.py`) and the
Image Processor (`test.py`).  JSON values are modelled as an inductive type
(`json.dumps` preserves insertion order of dict keys, so objects are ordered
association lists); a `print(json.dumps(x, ...))` call is modelled as the pair
of the value and the `indent` argument.  External effects (HTTP, PIL image
operations) are oracles supplied as a `World` structure; Python exceptions are
`Except String`; an `Except.error` escaping `mainImage` models an uncaught
exception (traceback on standard error, nothing printed to standard output),
while `Except.ok` models normal termination with the given list of prints.
-/

namespace Serverless

/-- JSON values; objects keep the field order of the Python dict literal. -/
inductive Json where
  | str (s : String)
  | int (n : Int)
  | arr (xs : List Json)
  | obj (fields : List (String × Json))
deriving Repr

/-- Field lookup inside a JSON object (`none` on non-objects/missing keys). -/
def Json.lookup (j : Json) (k : String) : Option Json :=
  match j with
  | .obj fs => fs.lookup k
  | _ => none

/-- One `print(json.dumps(v, indent?))` call: the value and the indent. -/
abbrev Print := Json × Option Nat

/-! ### Python `int()` over strings -/

/-- Whitespace stripped by Python's `int()` (ASCII portion). -/
def isPySpace (c : Char) : Bool :=
  c = ' ' || c = '\t' || c = '\n' || c = '\x0d' || c = '\x0b' || c = '\x0c'

/-- `str.strip()`-like trimming applied by `int()` before parsing. -/
def pyStrip (cs : List Char) : List Char :=
  ((cs.dropWhile isPySpace).reverse.dropWhile isPySpace).reverse

/-- Digits after the first, allowing a single `_` between digits. -/
def digitsCore (acc : Nat) : List Char → Option Nat
  | [] => some acc
  | '_' :: c :: cs =>
    if c.isDigit then digitsCore (acc * 10 + (c.toNat - 48)) cs else none
  | c :: cs =>
    if c.isDigit then digitsCore (acc * 10 + (c.toNat - 48)) cs else none

/-- A nonempty digit run (underscores only between digits), as in `int()`. -/
def parseUDigits : List Char → Option Nat
  | c :: cs => if c.isDigit then digitsCore (c.toNat - 48) cs else none
  | [] => none

/-- Python `int(s)`: strip, optional sign, digit run; `none` = `ValueError`. -/
def pyInt (s : String) : Option Int :=
  match pyStrip s.data with
  | '+' :: rest => (parseUDigits rest).map Int.ofNat
  | '-' :: rest => (parseUDigits rest).map (fun n => -(n : Int))
  | rest => (parseUDigits rest).map Int.ofNat

/-- Message of the `ValueError` raised by `int()` on a bad literal. -/
def intErr (s : String) : String :=
  "invalid literal for int() with base 10: '" ++ s ++ "'"

/-! ### base64 (RFC 4648, as used by `base64.b64encode` / `b64decode`) -/

/-- A byte. -/
abbrev Byte := Fin 256

/-- Raw byte strings (`bytes` in Python). -/
abbrev Bytes := List Byte

/-- The standard base64 alphabet. -/
def b64Alphabet : List Char :=
  "ABCDEFGHIJKLMNOPQRSTUVWXYZabcdefghijklmnopqrstuvwxyz0123456789+/".data

/-- The character encoding a 6-bit group. -/
def b64Char (n : Nat) : Char := b64Alphabet.getD n 'A'

/-- The 6-bit value of an alphabet character (`none` for `=` and others). -/
def b64CharVal (c : Char) : Option Nat := b64Alphabet.indexOf? c

/-- Truncate a reconstructed value to a byte. -/
def mkByte (n : Nat) : Byte := ⟨n % 256, Nat.mod_lt _ (by omega)⟩

/-- `base64.b64encode`: 3 bytes to 4 chars, `=`-padded at the end. -/
def b64encodeList : Bytes → List Char
  | [] => []
  | [a] =>
    [b64Char (a.val / 4), b64Char (a.val % 4 * 16), '=', '=']
  | [a, b] =>
    [b64Char (a.val / 4), b64Char (a.val % 4 * 16 + b.val / 16),
     b64Char (b.val % 16 * 4), '=']
  | a :: b :: c :: rest =>
    b64Char (a.val / 4) :: b64Char (a.val % 4 * 16 + b.val / 16) ::
    b64Char (b.val % 16 * 4 + c.val / 64) :: b64Char (c.val % 64) ::
    b64encodeList rest

/-- `base64.b64decode`: 4 chars at a time, `=`-padding only at the end. -/
def b64decodeList : List Char → Option Bytes
  | [] => some []
  | c1 :: c2 :: c3 :: c4 :: rest =>
    match b64CharVal c1, b64CharVal c2 with
    | some v1, some v2 =>
      if c3 = '=' then
        if c4 = '=' ∧ rest = [] then some [mkByte (v1 * 4 + v2 / 16)] else none
      else
        match b64CharVal c3 with
        | some v3 =>
          if c4 = '=' then
            if rest = [] then
              some [mkByte (v1 * 4 + v2 / 16), mkByte (v2 % 16 * 16 + v3 / 4)]
            else none
          else
            match b64CharVal c4 with
            | some v4 =>
              (b64decodeList rest).map (fun bs =>
                mkByte (v1 * 4 + v2 / 16) :: mkByte (v2 % 16 * 16 + v3 / 4) ::
                mkByte (v3 % 4 * 64 + v4) :: bs)
            | none => none
        | none => none
    | _, _ => none
  | _ => none

/-- `img_str = base64.b64encode(...).decode('utf-8')` as a `String`. -/
def b64encodeStr (bs : Bytes) : String := String.mk (b64encodeList bs)

/-- Decoding a base64 `String` back to bytes. -/
def b64decodeStr (s : String) : Option Bytes := b64decodeList s.data

theorem b64CharVal_b64Char : ∀ v < 64, b64CharVal (b64Char v) = some v := by
  decide

theorem b64Char_ne_pad : ∀ v < 64, ¬ b64Char v = '=' := by
  decide

theorem b64_roundtrip (bs : Bytes) :
    b64decodeList (b64encodeList bs) = some bs := by
  induction bs using b64encodeList.induct with
  | case1 => rfl
  | case2 a =>
    have ha := a.isLt
    have h1 := b64CharVal_b64Char (a.val / 4) (by omega)
    have h2 := b64CharVal_b64Char (a.val % 4 * 16) (by omega)
    simp [b64encodeList, b64decodeList, h1, h2, mkByte, Fin.ext_iff]
    omega
  | case3 a b =>
    have ha := a.isLt
    have hb := b.isLt
    have h1 := b64CharVal_b64Char (a.val / 4) (by omega)
    have h2 := b64CharVal_b64Char (a.val % 4 * 16 + b.val / 16) (by omega)
    have h3 := b64CharVal_b64Char (b.val % 16 * 4) (by omega)
    have hn3 := b64Char_ne_pad (b.val % 16 * 4) (by omega)
    simp [b64encodeList, b64decodeList, h1, h2, h3, hn3, mkByte, Fin.ext_iff]
    omega
  | case4 a b c rest ih =>
    have ha := a.isLt
    have hb := b.isLt
    have hc := c.isLt
    have h1 := b64CharVal_b64Char (a.val / 4) (by omega)
    have h2 := b64CharVal_b64Char (a.val % 4 * 16 + b.val / 16) (by omega)
    have h3 := b64CharVal_b64Char (b.val % 16 * 4 + c.val / 64) (by omega)
    have h4 := b64CharVal_b64Char (c.val % 64) (by omega)
    have hn3 := b64Char_ne_pad (b.val % 16 * 4 + c.val / 64) (by omega)
    have hn4 := b64Char_ne_pad (c.val % 64) (by omega)
    simp [b64encodeList, b64decodeList, h1, h2, h3, h4, hn3, hn4, ih, mkByte,
      Fin.ext_iff]
    omega

theorem b64_roundtrip_str (bs : Bytes) :
    b64decodeStr (b64encodeStr bs) = some bs := by
  simpa [b64decodeStr, b64encodeStr] using b64_roundtrip bs

/-! ### Greeter -/

/-- Runtime descriptors read from Python's `sys` module. -/
structure SysInfo where
  version : String
  plat : String

/-- The response dict built by the Greeter's `main` from `NAME` and `sys`. -/
def greeterResponse (name? : Option String) (sys : SysInfo) : Json :=
  let name := name?.getD "World"
  .obj
    [ ("message", .str ("Hello, " ++ name ++ "!"))
    , ("timestamp", .str "2023-01-16T12:34:56Z")
    , ("environment", .obj
        [ ("python_version", .str sys.version)
        , ("platform", .str sys.plat) ]) ]

/-- The Greeter's `main`: a single `print(json.dumps(response, indent=2))`. -/
def greeterMain (name? : Option String) (sys : SysInfo) : List Print :=
  [(greeterResponse name? sys, some 2)]

/-! ### Image Processor (`test.py`) -/

/-- The environment variables read by `test.py` (`none` = unset). -/
structure ImgEnv where
  IMAGE_URL : Option String
  WIDTH : Option String
  HEIGHT : Option String

/-- The default for `IMAGE_URL`, a literal sample URL. -/
def defaultUrl : String :=
  "https://plus.unsplash.com/premium_photo-1747135794086-280753a24793?q=80&w=1935&auto=format&fit=crop&ixlib=rb-4.1.0&ixid=M3wxMjA3fDB8MHxwaG90by1wYWdlfHx8fGVufDB8fHx8fA%3D%3D"

/-- `image_url = os.environ.get('IMAGE_URL', <defaultUrl>)`. -/
def resolvedUrl (env : ImgEnv) : String := env.IMAGE_URL.getD defaultUrl

/-- What `requests.get` returns: an HTTP status and the body bytes. -/
structure HttpResponse where
  status : Nat
  content : Bytes

/-- The external collaborators (HTTP client and PIL), as fallible oracles
over an abstract image type `Img`; `Except.error` is a raised exception. -/
structure World (Img : Type) where
  get : String → Except String HttpResponse
  openImage : Bytes → Except String Img
  resize : Img → Int → Int → Except String Img
  grayscale : Img → Except String Img
  gaussianBlur : Img → Nat → Except String Img
  saveJPEG : Img → Except String Bytes

/-- Observable side effects of the pipeline, in the order performed. -/
inductive Event where
  | httpGet (url : String)
  | raiseForStatus (status : Nat)
  | openImage
  | resize (width height : Int)
  | grayscale
  | gaussianBlur (radius : Nat)
  | saveJPEG
  | b64encode
deriving Repr, DecidableEq

/-- The message of the `HTTPError` raised by `raise_for_status`. -/
def httpErrMsg (status : Nat) (url : String) : String :=
  toString status ++ " Error for url: " ++ url

/-- The `{"error": ..., "status": "error"}` object of `test.py`. -/
def errorObj (msg : String) : Json :=
  .obj [("error", .str msg), ("status", .str "error")]

/-- The success response dict of `test.py`, in field order. -/
def successObj (url : String) (imgStr : String) (width height : Int) : Json :=
  .obj
    [ ("original_url", .str url)
    , ("processed_image", .str imgStr)
    , ("transformations", .arr [.str "resize", .str "grayscale", .str "blur"])
    , ("dimensions", .obj [("width", .int width), ("height", .int height)])
    , ("status", .str "success") ]

/-- The event trace of a fully successful pipeline run. -/
def successTrace (url : String) (status : Nat) (width height : Int) :
    List Event :=
  [.httpGet url, .raiseForStatus status, .openImage, .resize width height,
   .grayscale, .gaussianBlur 2, .saveJPEG, .b64encode]

/-- The `try:` block of `test.py`: fetch, `raise_for_status`, open, resize to
`(width, height)`, grayscale, Gaussian blur of radius 2, save as JPEG,
base64-encode.  Returns the response dict or the caught exception's message,
together with the trace of steps performed. -/
def tryBlock {Img : Type} (w : World Img) (url : String)
    (width height : Int) : Except String Json × List Event :=
  match w.get url with
  | .error e => (.error e, [.httpGet url])
  | .ok resp =>
    if 400 ≤ resp.status ∧ resp.status < 600 then
      (.error (httpErrMsg resp.status url), [.httpGet url, .raiseForStatus resp.status])
    else
      match w.openImage resp.content with
      | .error e => (.error e, [.httpGet url, .raiseForStatus resp.status, .openImage])
      | .ok img0 =>
        match w.resize img0 width height with
        | .error e =>
          (.error e, [.httpGet url, .raiseForStatus resp.status, .openImage,
            .resize width height])
        | .ok img1 =>
          match w.grayscale img1 with
          | .error e =>
            (.error e, [.httpGet url, .raiseForStatus resp.status, .openImage,
              .resize width height, .grayscale])
          | .ok img2 =>
            match w.gaussianBlur img2 2 with
            | .error e =>
              (.error e, [.httpGet url, .raiseForStatus resp.status, .openImage,
                .resize width height, .grayscale, .gaussianBlur 2])
            | .ok img3 =>
              match w.saveJPEG img3 with
              | .error e =>
                (.error e, [.httpGet url, .raiseForStatus resp.status, .openImage,
                  .resize width height, .grayscale, .gaussianBlur 2, .saveJPEG])
              | .ok bytes =>
                (.ok (successObj url (b64encodeStr bytes) width height),
                  successTrace url resp.status width height)

/-- `main()` of `test.py`.  `Except.error` models an exception escaping
`main` uncaught (nothing printed to standard output, traceback on standard
error); `Except.ok (prints, trace)` models normal termination with the
`print(json.dumps ...)` calls made and the pipeline steps performed. -/
def mainImage {Img : Type} (env : ImgEnv) (w : World Img) :
    Except String (List Print × List Event) :=
  let image_url := resolvedUrl env
  match pyInt (env.WIDTH.getD "300") with
  | none => .error (intErr (env.WIDTH.getD "300"))
  | some width =>
    match pyInt (env.HEIGHT.getD "300") with
    | none => .error (intErr (env.HEIGHT.getD "300"))
    | some height =>
      if image_url = "" then
        .ok ([(errorObj "No image URL provided", none)], [])
      else
        match tryBlock w image_url width height with
        | (.ok j, tr) => .ok ([(j, none)], tr)
        | (.error e, tr) => .ok ([(errorObj e, none)], tr)

/-- Body bytes served by the fixture world's HTTP GET. -/
def fetchFixture : Bytes := [⟨10, by omega⟩]

/-- JPEG bytes produced by the fixture world's `save` step. -/
def jpegFixture : Bytes := [⟨255, by omega⟩, ⟨0, by omega⟩, ⟨216, by omega⟩]

/-- A world in which every pipeline step succeeds (used as a test fixture). -/
def okWorld : World Unit :=
  { get := fun _ => .ok ⟨200, fetchFixture⟩
    openImage := fun _ => .ok ()
    resize := fun _ _ _ => .ok ()
    grayscale := fun _ => .ok ()
    gaussianBlur := fun _ _ => .ok ()
    saveJPEG := fun _ => .ok jpegFixture }

/-- A world whose HTTP GET returns status 404 (used as a test fixture). -/
def world404 : World Unit :=
  { okWorld with get := fun _ => .ok ⟨404, []⟩ }

end Serverless

namespace Serverless

example : pyInt "300" = some 300 := by decide
example : pyInt "abc" = none := by decide
example : pyInt "" = none := by decide
example : pyInt " 17 " = some 17 := by decide
example : pyInt "-4" = some (-4) := by decide
example : pyInt "1_0" = some 10 := by decide
example : pyInt "1__0" = none := by decide
example : pyInt "3.5" = none := by decide

/-- A `tryBlock` run that returns `Except.ok` necessarily produced the
success response object and the full success trace. -/
theorem tryBlock_ok_inv {Img : Type} {w : World Img} {url : String}
    {wi hi : Int} {j : Json} {tr : List Event}
    (h : tryBlock w url wi hi = (Except.ok j, tr)) :
    ∃ bytes status, j = successObj url (b64encodeStr bytes) wi hi ∧
      tr = successTrace url status wi hi := by
  unfold tryBlock at h
  cases hg : w.get url with
  | error e => simp only [hg] at h; simp at h
  | ok resp =>
    simp only [hg] at h
    by_cases hs : 400 ≤ resp.status ∧ resp.status < 600
    · rw [if_pos hs] at h; simp at h
    · rw [if_neg hs] at h
      cases ho : w.openImage resp.content with
      | error e => simp only [ho] at h; simp at h
      | ok img0 =>
        simp only [ho] at h
        cases hr : w.resize img0 wi hi with
        | error e => simp only [hr] at h; simp at h
        | ok img1 =>
          simp only [hr] at h
          cases hgr : w.grayscale img1 with
          | error e => simp only [hgr] at h; simp at h
          | ok img2 =>
            simp only [hgr] at h
            cases hbl : w.gaussianBlur img2 2 with
            | error e => simp only [hbl] at h; simp at h
            | ok img3 =>
              simp only [hbl] at h
              cases hsv : w.saveJPEG img3 with
              | error e => simp only [hsv] at h; simp at h
              | ok bytes =>
                simp only [hsv, Prod.mk.injEq, Except.ok.injEq] at h
                exact ⟨bytes, resp.status, h.1.symm, h.2.symm⟩

/-- When every pipeline step succeeds, `tryBlock` returns the success
response object and performs the steps in the fixed order. -/
theorem tryBlock_success {Img : Type} (w : World Img) (url : String)
    (wi hi : Int) (resp : HttpResponse) (img0 img1 img2 img3 : Img)
    (bytes : Bytes)
    (hg : w.get url = Except.ok resp)
    (hs : ¬(400 ≤ resp.status ∧ resp.status < 600))
    (ho : w.openImage resp.content = Except.ok img0)
    (hr : w.resize img0 wi hi = Except.ok img1)
    (hgr : w.grayscale img1 = Except.ok img2)
    (hbl : w.gaussianBlur img2 2 = Except.ok img3)
    (hsv : w.saveJPEG img3 = Except.ok bytes) :
    tryBlock w url wi hi =
      (Except.ok (successObj url (b64encodeStr bytes) wi hi),
       successTrace url resp.status wi hi) := by
  unfold tryBlock
  simp only [hg]
  rw [if_neg hs]
  simp only [ho, hr, hgr, hbl, hsv]

/-- C1 (counterexample): with `WIDTH="abc"`, the invocation does NOT print a
JSON error object — `int('abc')` raises a `ValueError` outside the `try:`
block, so the exception escapes `main` uncaught and nothing is printed to
standard output. -/
theorem c1_counterexample :
    mainImage ⟨none, some "abc", none⟩ okWorld =
      Except.error "invalid literal for int() with base 10: 'abc'" := rfl

/-- C1 (amended): for every environment in which `WIDTH` (or `HEIGHT`)
is a non-numeric string, the `int` parse raises an uncaught `ValueError`
before the `try:` block, so the invocation terminates with an exception and
prints no JSON at all; the failure is not surfaced via the generic error
path. -/
theorem c1_parse_failure_uncaught {Img : Type} (env : ImgEnv) (w : World Img)
    (h : pyInt (env.WIDTH.getD "300") = none ∨
         pyInt (env.HEIGHT.getD "300") = none) :
    ∃ msg, mainImage env w = Except.error msg := by
  rcases h with h | h
  · exact ⟨intErr (env.WIDTH.getD "300"), by simp [mainImage, h]⟩
  · cases hw : pyInt (env.WIDTH.getD "300") with
    | none => exact ⟨intErr (env.WIDTH.getD "300"), by simp [mainImage, hw]⟩
    | some wv =>
      exact ⟨intErr (env.HEIGHT.getD "300"), by simp [mainImage, hw, h]⟩

/-- Witness for C1 (amended) at `HEIGHT="xyz"`. -/
theorem c1_parse_failure_uncaught_witness :
    ∃ msg, mainImage ⟨none, none, some "xyz"⟩ okWorld = Except.error msg :=
  c1_parse_failure_uncaught ⟨none, none, some "xyz"⟩ okWorld (Or.inr (by decide))

/-- C2 (counterexample): with `HEIGHT="12px"`, the invocation prints no JSON
object at all (the `int` parse raises an uncaught exception), so it is not
the case that exactly one JSON object is printed for every environment. -/
theorem c2_counterexample :
    mainImage ⟨none, none, some "12px"⟩ okWorld =
      Except.error "invalid literal for int() with base 10: '12px'" := rfl

/-- C2 (amended): for every environment in which `WIDTH` and `HEIGHT` parse
as integers (and every fetch/decode outcome), the invocation prints exactly
one JSON object; its `status` field is `"success"` exactly when the URL was
nonempty and the pipeline succeeded, and `"error"` otherwise. -/
theorem c2_single_print {Img : Type} (env : ImgEnv) (w : World Img)
    (wv hv : Int)
    (hw : pyInt (env.WIDTH.getD "300") = some wv)
    (hh : pyInt (env.HEIGHT.getD "300") = some hv) :
    ∃ j tr, mainImage env w = Except.ok ([(j, none)], tr) ∧
      ∃ s, j.lookup "status" = some (.str s) ∧
        (s = "success" ∨ s = "error") ∧
        (s = "success" ↔ resolvedUrl env ≠ "" ∧
          (tryBlock w (resolvedUrl env) wv hv).1.isOk = true) := by
  by_cases hu : resolvedUrl env = ""
  · refine ⟨errorObj "No image URL provided", [], by simp [mainImage, hw, hh, hu],
      "error", rfl, Or.inr rfl, ?_⟩
    constructor
    · intro h; exact absurd h (by decide)
    · rintro ⟨hne, -⟩; exact absurd hu hne
  · rcases htb : tryBlock w (resolvedUrl env) wv hv with ⟨res, tr⟩
    cases res with
    | ok j =>
      obtain ⟨bytes, status, rfl, -⟩ := tryBlock_ok_inv htb
      refine ⟨successObj (resolvedUrl env) (b64encodeStr bytes) wv hv, tr, ?_,
        "success", rfl, Or.inl rfl, ?_⟩
      · simp only [mainImage, hw, hh]
        rw [if_neg hu, htb]
      · simp [hu, Except.isOk, Except.toBool]
    | error e =>
      refine ⟨errorObj e, tr, ?_, "error", rfl, Or.inr rfl, ?_⟩
      · simp only [mainImage, hw, hh]
        rw [if_neg hu, htb]
      · constructor
        · intro h; exact absurd h (by decide)
        · rintro ⟨-, hok⟩
          simp [Except.isOk, Except.toBool] at hok

/-- Witness for C2 (amended) in the default environment with the fixture
world. -/
theorem c2_single_print_witness :
    ∃ j tr, mainImage ⟨none, none, none⟩ okWorld = Except.ok ([(j, none)], tr) ∧
      ∃ s, j.lookup "status" = some (.str s) ∧
        (s = "success" ∨ s = "error") ∧
        (s = "success" ↔ resolvedUrl ⟨none, none, none⟩ ≠ "" ∧
          (tryBlock okWorld (resolvedUrl ⟨none, none, none⟩) 300 300).1.isOk
            = true) :=
  c2_single_print ⟨none, none, none⟩ okWorld 300 300 rfl rfl

/-- C3 (counterexample): with `NAME` set to the empty string, the Greeter's
message is `"Hello, !"`, not `"Hello, World!"` — `os.environ.get` only
falls back to `'World'` when the variable is unset, not when it is empty. -/
theorem c3_counterexample :
    (greeterResponse (some "") ⟨"3.12.0", "linux"⟩).lookup "message" =
      some (.str "Hello, !") ∧ ("Hello, !" : String) ≠ "Hello, World!" :=
  ⟨rfl, by decide⟩

/-- C3 (amended): the Greeter's `message` equals `"Hello, " ++ n ++ "!"`
for every value `n` that `NAME` is set to (including the empty string), and
equals `"Hello, World!"` exactly when `NAME` is unset. -/
theorem c3_greeter_message (sys : SysInfo) :
    (∀ n : String, (greeterResponse (some n) sys).lookup "message" =
      some (.str ("Hello, " ++ n ++ "!"))) ∧
    (greeterResponse none sys).lookup "message" =
      some (.str "Hello, World!") :=
  ⟨fun _ => rfl, rfl⟩

/-- C4 (counterexample): the Greeter's `environment` object has no key
`runtime_version`; the runtime descriptor is stored under `python_version`. -/
theorem c4_counterexample :
    ((greeterResponse none ⟨"3.12.0", "linux"⟩).lookup "environment").bind
      (fun j => j.lookup "runtime_version") = none ∧
    ((greeterResponse none ⟨"3.12.0", "linux"⟩).lookup "environment").bind
      (fun j => j.lookup "python_version") = some (.str "3.12.0") :=
  ⟨rfl, rfl⟩

/-- C4 (amended): for every environment, the Greeter prints exactly one
pretty-printed (2-space indent) JSON object with keys `message`,
`timestamp` and `environment`, where `environment` has keys
`python_version` and `platform`, and `timestamp` is always the literal
`"2023-01-16T12:34:56Z"` regardless of invocation time. -/
theorem c4_greeter_shape (name? : Option String) (sys : SysInfo) :
    greeterMain name? sys =
      [(Json.obj
        [ ("message", .str ("Hello, " ++ name?.getD "World" ++ "!"))
        , ("timestamp", .str "2023-01-16T12:34:56Z")
        , ("environment", .obj
            [ ("python_version", .str sys.version)
            , ("platform", .str sys.plat) ]) ], some 2)] := rfl

/-- C5 (confirmed): every exception raised inside the `try:` block (fetch,
status check, decode, resize, grayscale, blur, encode) is caught, and the
invocation terminates normally (`Except.ok`, so no failure exit code or
traceback) printing exactly one compact JSON object with exactly the keys
`error` (the exception's message) and `status` (`"error"`), and no
`processed_image` key. -/
theorem c5_generic_error_path {Img : Type} (env : ImgEnv) (w : World Img)
    (wv hv : Int) (e : String) (tr : List Event)
    (hw : pyInt (env.WIDTH.getD "300") = some wv)
    (hh : pyInt (env.HEIGHT.getD "300") = some hv)
    (hu : resolvedUrl env ≠ "")
    (htb : tryBlock w (resolvedUrl env) wv hv = (Except.error e, tr)) :
    mainImage env w = Except.ok
      ([(Json.obj [("error", .str e), ("status", .str "error")], none)], tr)
    ∧ (Json.obj [("error", .str e), ("status", .str "error")]).lookup
        "processed_image" = none := by
  constructor
  · simp only [mainImage, hw, hh]
    rw [if_neg hu, htb]
    rfl
  · rfl

/-- Witness for C5 with an HTTP 404 world in the default environment. -/
theorem c5_generic_error_path_witness :
    mainImage ⟨none, none, none⟩ world404 = Except.ok
      ([(Json.obj [("error", .str (httpErrMsg 404 defaultUrl)),
                   ("status", .str "error")], none)],
        [.httpGet defaultUrl, .raiseForStatus 404])
    ∧ (Json.obj [("error", .str (httpErrMsg 404 defaultUrl)),
                 ("status", .str "error")]).lookup "processed_image" = none :=
  c5_generic_error_path ⟨none, none, none⟩ world404 300 300
    (httpErrMsg 404 defaultUrl) [.httpGet defaultUrl, .raiseForStatus 404]
    rfl rfl (by decide) rfl

/-- C6 (confirmed): on a fully successful run the invocation prints exactly
one compact JSON object with `original_url` the resolved `IMAGE_URL`,
`processed_image` the base64 payload of the encoded JPEG bytes,
`transformations` the literal list `["resize", "grayscale", "blur"]` in
that order, `dimensions` the width and height parsed from the environment,
and `status` equal to `"success"`. -/
theorem c6_success_output {Img : Type} (env : ImgEnv) (w : World Img)
    (wv hv : Int) (resp : HttpResponse) (img0 img1 img2 img3 : Img)
    (bytes : Bytes)
    (hw : pyInt (env.WIDTH.getD "300") = some wv)
    (hh : pyInt (env.HEIGHT.getD "300") = some hv)
    (hu : resolvedUrl env ≠ "")
    (hg : w.get (resolvedUrl env) = Except.ok resp)
    (hs : ¬(400 ≤ resp.status ∧ resp.status < 600))
    (ho : w.openImage resp.content = Except.ok img0)
    (hr : w.resize img0 wv hv = Except.ok img1)
    (hgr : w.grayscale img1 = Except.ok img2)
    (hbl : w.gaussianBlur img2 2 = Except.ok img3)
    (hsv : w.saveJPEG img3 = Except.ok bytes) :
    mainImage env w = Except.ok
      ([(Json.obj
          [ ("original_url", .str (resolvedUrl env))
          , ("processed_image", .str (b64encodeStr bytes))
          , ("transformations",
              .arr [.str "resize", .str "grayscale", .str "blur"])
          , ("dimensions", .obj [("width", .int wv), ("height", .int hv)])
          , ("status", .str "success") ], none)],
        successTrace (resolvedUrl env) resp.status wv hv) := by
  simp only [mainImage, hw, hh]
  rw [if_neg hu,
    tryBlock_success w (resolvedUrl env) wv hv resp img0 img1 img2 img3 bytes
      hg hs ho hr hgr hbl hsv]
  rfl

/-- Witness for C6 in the default environment with the fixture world. -/
theorem c6_success_output_witness :
    mainImage ⟨none, none, none⟩ okWorld = Except.ok
      ([(Json.obj
          [ ("original_url", .str defaultUrl)
          , ("processed_image", .str (b64encodeStr jpegFixture))
          , ("transformations",
              .arr [.str "resize", .str "grayscale", .str "blur"])
          , ("dimensions",
              .obj [("width", .int 300), ("height", .int 300)])
          , ("status", .str "success") ], none)],
        successTrace defaultUrl 200 300 300) :=
  c6_success_output ⟨none, none, none⟩ okWorld 300 300 ⟨200, fetchFixture⟩
    () () () () jpegFixture rfl rfl (by decide) rfl (by decide)
    rfl rfl rfl rfl rfl

/-- C7 (confirmed): on a fully successful run the pipeline performs, in
this exact order with no step skipped, the HTTP GET, the status check, the
image decode, a direct resize to `(width, height)`, grayscale conversion, a
Gaussian blur of fixed radius 2, JPEG encoding, and base64 encoding of the
JPEG bytes. -/
theorem c7_pipeline_order {Img : Type} (env : ImgEnv) (w : World Img)
    (wv hv : Int) (resp : HttpResponse) (img0 img1 img2 img3 : Img)
    (bytes : Bytes)
    (hw : pyInt (env.WIDTH.getD "300") = some wv)
    (hh : pyInt (env.HEIGHT.getD "300") = some hv)
    (hu : resolvedUrl env ≠ "")
    (hg : w.get (resolvedUrl env) = Except.ok resp)
    (hs : ¬(400 ≤ resp.status ∧ resp.status < 600))
    (ho : w.openImage resp.content = Except.ok img0)
    (hr : w.resize img0 wv hv = Except.ok img1)
    (hgr : w.grayscale img1 = Except.ok img2)
    (hbl : w.gaussianBlur img2 2 = Except.ok img3)
    (hsv : w.saveJPEG img3 = Except.ok bytes) :
    mainImage env w = Except.ok
      ([(successObj (resolvedUrl env) (b64encodeStr bytes) wv hv, none)],
        [ Event.httpGet (resolvedUrl env), Event.raiseForStatus resp.status
        , Event.openImage, Event.resize wv hv, Event.grayscale
        , Event.gaussianBlur 2, Event.saveJPEG, Event.b64encode ]) := by
  simp only [mainImage, hw, hh]
  rw [if_neg hu,
    tryBlock_success w (resolvedUrl env) wv hv resp img0 img1 img2 img3 bytes
      hg hs ho hr hgr hbl hsv]
  rfl

/-- Witness for C7 in the default environment with the fixture world. -/
theorem c7_pipeline_order_witness :
    mainImage ⟨none, none, none⟩ okWorld = Except.ok
      ([(successObj defaultUrl (b64encodeStr jpegFixture) 300 300, none)],
        [ Event.httpGet defaultUrl, Event.raiseForStatus 200
        , Event.openImage, Event.resize 300 300, Event.grayscale
        , Event.gaussianBlur 2, Event.saveJPEG, Event.b64encode ]) :=
  c7_pipeline_order ⟨none, none, none⟩ okWorld 300 300 ⟨200, fetchFixture⟩
    () () () () jpegFixture rfl rfl (by decide) rfl (by decide)
    rfl rfl rfl rfl rfl

/-- C8 (confirmed): when the resolved `IMAGE_URL` is the empty string (and
`WIDTH`, `HEIGHT` parse as integers), the invocation prints exactly the
object `{"error": "No image URL provided", "status": "error"}` and returns
with an empty event trace, i.e. without attempting any network access. -/
theorem c8_no_url {Img : Type} (env : ImgEnv) (w : World Img) (wv hv : Int)
    (hw : pyInt (env.WIDTH.getD "300") = some wv)
    (hh : pyInt (env.HEIGHT.getD "300") = some hv)
    (hu : resolvedUrl env = "") :
    mainImage env w = Except.ok
      ([(Json.obj [("error", .str "No image URL provided"),
                   ("status", .str "error")], none)], []) := by
  simp only [mainImage, hw, hh, hu]
  rfl

/-- Witness for C8 with `IMAGE_URL` set to the empty string. -/
theorem c8_no_url_witness :
    mainImage ⟨some "", none, none⟩ okWorld = Except.ok
      ([(Json.obj [("error", .str "No image URL provided"),
                   ("status", .str "error")], none)], []) :=
  c8_no_url ⟨some "", none, none⟩ okWorld 300 300 rfl rfl rfl

/-- C9 (confirmed): whenever the printed object has `status` `"success"`,
its `processed_image` field is a base64 string whose decoding succeeds
(it round-trips to the JPEG bytes produced by the encode step). -/
theorem c9_base64_roundtrip {Img : Type} (env : ImgEnv) (w : World Img)
    (j : Json) (ind : Option Nat) (tr : List Event)
    (hrun : mainImage env w = Except.ok ([(j, ind)], tr))
    (hst : j.lookup "status" = some (.str "success")) :
    ∃ p, j.lookup "processed_image" = some (.str p) ∧
      (b64decodeStr p).isSome = true := by
  cases hw : pyInt (env.WIDTH.getD "300") with
  | none => simp [mainImage, hw] at hrun
  | some wv =>
    cases hh : pyInt (env.HEIGHT.getD "300") with
    | none => simp [mainImage, hw, hh] at hrun
    | some hv =>
      by_cases hu : resolvedUrl env = ""
      · simp [mainImage, hw, hh, hu] at hrun
        rw [← hrun.1.1] at hst
        simp [errorObj, Json.lookup, List.lookup] at hst
      · rcases htb : tryBlock w (resolvedUrl env) wv hv with ⟨res, tr'⟩
        cases res with
        | error e =>
          simp only [mainImage, hw, hh] at hrun
          rw [if_neg hu, htb] at hrun
          simp at hrun
          rw [← hrun.1.1] at hst
          simp [errorObj, Json.lookup, List.lookup] at hst
        | ok j' =>
          simp only [mainImage, hw, hh] at hrun
          rw [if_neg hu, htb] at hrun
          simp at hrun
          obtain ⟨bytes, status, hj, -⟩ := tryBlock_ok_inv htb
          refine ⟨b64encodeStr bytes, ?_, ?_⟩
          · rw [← hrun.1.1, hj]
            rfl
          · rw [b64_roundtrip_str]
            rfl

/-- Witness for C9 at the fixture world's successful run. -/
theorem c9_base64_roundtrip_witness :
    ∃ p, (successObj defaultUrl (b64encodeStr jpegFixture) 300 300).lookup
        "processed_image" = some (.str p) ∧
      (b64decodeStr p).isSome = true :=
  c9_base64_roundtrip ⟨none, none, none⟩ okWorld
    (successObj defaultUrl (b64encodeStr jpegFixture) 300 300) none
    (successTrace defaultUrl 200 300 300) rfl rfl

/-- C10 (confirmed): the `WIDTH`/`HEIGHT` parses happen before the empty
`IMAGE_URL` check: if either fails to parse, the invocation terminates with
an uncaught exception and never reaches `Except.ok` — in particular the
`{"error": "No image URL provided", ...}` object is never printed, so the
explicit input-error branch is reachable only when both parse. -/
theorem c10_parse_before_url_check {Img : Type} (env : ImgEnv)
    (w : World Img)
    (h : pyInt (env.WIDTH.getD "300") = none ∨
         pyInt (env.HEIGHT.getD "300") = none) :
    ∀ out : List Print × List Event, mainImage env w ≠ Except.ok out := by
  intro out hok
  rcases h with h | h
  · simp [mainImage, h] at hok
  · cases hw : pyInt (env.WIDTH.getD "300") with
    | none => simp [mainImage, hw] at hok
    | some wv => simp [mainImage, hw, h] at hok

/-- Witness for C10: with `IMAGE_URL=""` and `WIDTH="abc"`, the no-URL
error object is not printed. -/
theorem c10_parse_before_url_check_witness :
    mainImage ⟨some "", some "abc", none⟩ okWorld ≠ Except.ok
      ([(Json.obj [("error", .str "No image URL provided"),
                   ("status", .str "error")], none)], []) :=
  c10_parse_before_url_check ⟨some "", some "abc", none⟩ okWorld
    (Or.inl (by decide))
    ([(Json.obj [("error", .str "No image URL provided"),
                 ("status", .str "error")], none)], [])

end Serverless
